import Mathlib

/-!
Verification development for the church confirmation record-management
application (FastAPI + SQLite): shallow embedding of `main.py` (CSRF guard,
date parsing, confirmation CRUD, search, CSV export) and `auth.py`
(bcrypt-backed password hashing/verification), with theorems checking the
specification's claims against the embedded code.
-/

namespace ParishRecord

/-! ## Python string primitives

The handful of Python string operations the app uses (`str.strip`,
splitting on a separator, digit parsing), modelled structurally over
character lists. -/

/-- Python's `str.isspace` characters within ASCII: code points 9–13 (tab,
newline, vertical tab, form feed, carriage return), 28–31 (the file, group,
record and unit separators) and 32 (space). -/
def pyWhitespace (c : Char) : Bool :=
  c == ' ' || c == '\t' || c == '\n' || c == '\r' ||
    c == Char.ofNat 11 || c == Char.ofNat 12 ||
    c == Char.ofNat 28 || c == Char.ofNat 29 ||
    c == Char.ofNat 30 || c == Char.ofNat 31

/-- Python's `str.strip()`: drop leading and trailing whitespace. -/
def pyStrip (s : String) : String :=
  String.mk (((s.toList.dropWhile pyWhitespace).reverse.dropWhile
    pyWhitespace).reverse)

/-- Split a character list at every dash (CPython's `strptime` consumes the
literal `-` separators of the format `%Y-%m-%d`). -/
def splitDash : List Char → List (List Char)
  | [] => [[]]
  | '-' :: cs => [] :: splitDash cs
  | c :: cs =>
    match splitDash cs with
    | [] => [[c]]
    | g :: gs => (c :: g) :: gs

/-- Parse a non-empty all-digit character list as a number. -/
def digitsToNat : List Char → Option Nat
  | [] => none
  | cs =>
    if cs.all Char.isDigit then
      some (cs.foldl (fun a c => a * 10 + (c.toNat - 48)) 0)
    else none

/-! ## Dates (`datetime.date`, `parse_date` in main.py) -/

/-- A calendar date as carried by Python's `datetime.date`. -/
structure PDate where
  year : Nat
  month : Nat
  day : Nat
deriving DecidableEq

/-- Gregorian leap-year rule used by `datetime.date`. -/
def isLeapYear (y : Nat) : Bool :=
  y % 4 == 0 && (y % 100 != 0 || y % 400 == 0)

/-- Days in a month, per `datetime.date`'s validation. -/
def daysInMonth (y m : Nat) : Nat :=
  if m == 2 then (if isLeapYear y then 29 else 28)
  else if m == 4 || m == 6 || m == 9 || m == 11 then 30
  else 31

/-- `datetime.date(y, m, d)` succeeds exactly on these triples
(MINYEAR = 1, MAXYEAR = 9999). -/
def validDate (d : PDate) : Bool :=
  1 ≤ d.year && d.year ≤ 9999 && 1 ≤ d.month && d.month ≤ 12 &&
    1 ≤ d.day && d.day ≤ daysInMonth d.year d.month

/-- CPython `strptime`'s `%d` pattern
`3[0-1]|[1-2]\d|0[1-9]|[1-9]| [1-9]`: one or two digits valued 1–31, or a
space followed by one nonzero digit (space-padded days are accepted). -/
def matchDay : List Char → Option Nat
  | [' ', c] =>
    if '1' ≤ c && c ≤ '9' then some (c.toNat - 48) else none
  | cs =>
    match digitsToNat cs with
    | some d => if cs.length ≤ 2 && 1 ≤ d && d ≤ 31 then some d else none
    | none => none

/-- `parse_date` in main.py: `datetime.strptime(value, "%Y-%m-%d").date()`,
`none` when the Python call raises `ValueError`.  CPython's `strptime`
matches `%Y` as exactly four digits, `%m` as 1–2 digits with value 1–12
(zero padding is NOT required), and `%d` per `matchDay`; the two literal
dashes must appear, the whole input must be consumed, and the resulting
triple must be a valid `datetime.date`. -/
def parseDateField (s : String) : Option PDate :=
  match splitDash s.toList with
  | [ys, ms, ds] =>
    match digitsToNat ys, digitsToNat ms, matchDay ds with
    | some y, some m, some d =>
      if ys.length == 4 && ms.length ≤ 2 && 1 ≤ m && m ≤ 12 &&
          validDate ⟨y, m, d⟩ then
        some ⟨y, m, d⟩
      else none
    | _, _, _ => none
  | _ => none

/-- The spec's words: "the exact format YYYY-MM-DD", i.e. four digits,
dash, two digits, dash, two digits.  Stated from the spec, to compare with
`parseDateField`, which is translated from the code. -/
def specExactYMD (s : String) : Bool :=
  match splitDash s.toList with
  | [ys, ms, ds] =>
    ys.length == 4 && ms.length == 2 && ds.length == 2 &&
      ys.all Char.isDigit && ms.all Char.isDigit && ds.all Char.isDigit
  | _ => false

/-! ## Data model (`models.py`) -/

/-- A row of the `confirmations` table.  `created_at` is an abstract
timestamp (the code stores `datetime.utcnow()`). -/
structure Confirmation where
  id : Nat
  full_name : String
  date_of_birth : PDate
  confirmation_date : PDate
  church_name : String
  priest_name : String
  sponsor_name : String
  remarks : String
  created_at : Nat
deriving DecidableEq

/-- A row of the `users` table. -/
structure UserRec where
  id : Nat
  username : String
  password_hash : String
deriving DecidableEq

/-- The SQLite record store: the `confirmations` rows in insertion order,
plus the next auto-assigned primary key. -/
structure Store where
  records : List Confirmation
  next_id : Nat
deriving DecidableEq

/-- The server-side session (`request.session`): `user_id` and the stored
CSRF token, each absent until set. -/
structure Session where
  user_id : Option Nat
  csrf_token : Option String
deriving DecidableEq

/-- Outcomes of the handlers' failure paths (`HTTPException`s raised in
main.py): 303-redirect to login, 400 invalid CSRF, 404 not found, 400 bad
date naming the offending field, and an unhandled exception. -/
inductive Err where
  | Unauthenticated
  | CsrfMismatch
  | NotFound
  | ValidationError (field : String)
  | Internal
deriving DecidableEq

/-! ## Session & CSRF guard (main.py) -/

/-- `validate_csrf` in main.py: ok unless
`not session_token or csrf_token != session_token` (Python falsiness: a
missing token and the empty-string token both fail). -/
def validate_csrf (stored : Option String) (submitted : String) : Bool :=
  match stored with
  | none => false
  | some t => !(t == "") && submitted == t

/-- `login_required` in main.py: `request.session.get("user_id")` must be
set (truthy). -/
def login_required (sess : Session) : Bool :=
  sess.user_id.isSome

/-- The store an HTTP request leaves behind: a handler that raised left the
store untouched. -/
def applyResult (db : Store) (r : Except Err Store) : Store :=
  match r with
  | .ok db2 => db2
  | .error _ => db

/-! ## Confirmation CRUD handlers (main.py) -/

/-- The form fields the create/edit routes receive (all strings; the last
two default to `""` in the route signature). -/
structure ConfirmationForm where
  full_name : String
  date_of_birth : String
  confirmation_date : String
  church_name : String
  priest_name : String
  sponsor_name : String
  remarks : String
deriving DecidableEq

/-- `create_confirmation` in main.py: auth dependency, then CSRF check, then
the row is built (strings `.strip()`ed, the two dates parsed through
`parse_date`, `date_of_birth` first), appended and committed.  `now` stands
for `datetime.utcnow()`. -/
def create_confirmation (sess : Session) (f : ConfirmationForm)
    (csrf_token : String) (now : Nat) (db : Store) : Except Err Store :=
  if !(login_required sess) then .error .Unauthenticated
  else if !(validate_csrf sess.csrf_token csrf_token) then .error .CsrfMismatch
  else match parseDateField f.date_of_birth with
  | none => .error (.ValidationError "date_of_birth")
  | some dob =>
    match parseDateField f.confirmation_date with
    | none => .error (.ValidationError "confirmation_date")
    | some cd =>
      .ok ⟨db.records ++
            [⟨db.next_id, pyStrip f.full_name, dob, cd, pyStrip f.church_name,
              pyStrip f.priest_name, pyStrip f.sponsor_name, pyStrip f.remarks, now⟩],
           db.next_id + 1⟩

/-- `db.get(Confirmation, record_id)`: primary-key lookup. -/
def dbGet (db : Store) (record_id : Nat) : Option Confirmation :=
  db.records.find? (fun r => r.id == record_id)

/-- `view_confirmation` (GET `/confirmations/{record_id}`) in main.py: auth,
then a 404 when the row is absent. -/
def view_confirmation (sess : Session) (record_id : Nat) (db : Store) :
    Except Err Confirmation :=
  if !(login_required sess) then .error .Unauthenticated
  else match dbGet db record_id with
  | none => .error .NotFound
  | some r => .ok r

/-- The field reassignments of `update_confirmation` in main.py: every
mutable field replaced (strings trimmed, dates already parsed); `id` and
`created_at` are never assigned. -/
def applyEdit (f : ConfirmationForm) (dob cd : PDate) (r : Confirmation) :
    Confirmation :=
  { r with
    full_name := pyStrip f.full_name
    date_of_birth := dob
    confirmation_date := cd
    church_name := pyStrip f.church_name
    priest_name := pyStrip f.priest_name
    sponsor_name := pyStrip f.sponsor_name
    remarks := pyStrip f.remarks }

/-- `update_confirmation` in main.py: auth, CSRF, 404 when absent, then all
mutable fields are reassigned (strings trimmed, dates parsed,
`date_of_birth` first) and committed; `id` and `created_at` are never
touched.  A parse failure raises before the commit, so the store is
unchanged on every error path. -/
def update_confirmation (sess : Session) (record_id : Nat)
    (f : ConfirmationForm) (csrf_token : String) (db : Store) :
    Except Err Store :=
  if !(login_required sess) then .error .Unauthenticated
  else if !(validate_csrf sess.csrf_token csrf_token) then .error .CsrfMismatch
  else match dbGet db record_id with
  | none => .error .NotFound
  | some _ =>
    match parseDateField f.date_of_birth with
    | none => .error (.ValidationError "date_of_birth")
    | some dob =>
      match parseDateField f.confirmation_date with
      | none => .error (.ValidationError "confirmation_date")
      | some cd =>
        .ok ⟨db.records.map (fun r =>
              if r.id == record_id then applyEdit f dob cd r else r),
             db.next_id⟩

/-- `delete_confirmation` in main.py: auth, CSRF, 404 when absent, then the
row is deleted and the deletion committed (hard delete of that primary
key). -/
def delete_confirmation (sess : Session) (record_id : Nat)
    (csrf_token : String) (db : Store) : Except Err Store :=
  if !(login_required sess) then .error .Unauthenticated
  else if !(validate_csrf sess.csrf_token csrf_token) then .error .CsrfMismatch
  else match dbGet db record_id with
  | none => .error .NotFound
  | some _ => .ok ⟨db.records.filter (fun r => !(r.id == record_id)), db.next_id⟩

/-! ## Search (`list_confirmations` in main.py)

The route filters with SQLAlchemy `ilike` against the pattern
`"%" + q.strip() + "%"`.  On SQLite this compiles to
`lower(col) LIKE lower(pattern)`: ASCII-only case folding, `%` matching any
run of characters, `_` matching any single character, no escape character
(so wildcards inside the query are interpreted, not literal). -/

/-- SQLite `lower()`: ASCII-only case folding. -/
def asciiLower (c : Char) : Char :=
  if 'A' ≤ c && c ≤ 'Z' then Char.ofNat (c.toNat + 32) else c

/-- `anySuffix f cs`: does `f` hold of some suffix of `cs` (the full list
included)? -/
def anySuffix (f : List Char → Bool) : List Char → Bool
  | [] => f []
  | c :: cs => f (c :: cs) || anySuffix f cs

/-- SQLite `LIKE` after both sides went through `lower()`: `%` matches any
(possibly empty) run, `_` matches one character, anything else matches
itself up to ASCII case. -/
def likeMatch : List Char → List Char → Bool
  | [] => fun cs => cs.isEmpty
  | '%' :: ps => fun cs => anySuffix (likeMatch ps) cs
  | '_' :: ps => fun cs =>
    match cs with
    | [] => false
    | _ :: cs2 => likeMatch ps cs2
  | p :: ps => fun cs =>
    match cs with
    | [] => false
    | c :: cs2 => asciiLower p == asciiLower c && likeMatch ps cs2

/-- `"%04d"`-style zero padding used by `str(date)` / SQLite `strftime`. -/
def padZeros (n : Nat) (s : String) : String :=
  String.mk (List.replicate (n - s.length) '0') ++ s

/-- `strftime("%Y-%m-%d", d)` (also `str(d)` for a Python `date`):
zero-padded ISO format, which is how SQLAlchemy stores `Date` columns in
SQLite. -/
def formatDate (d : PDate) : String :=
  padZeros 4 (toString d.year) ++ "-" ++ padZeros 2 (toString d.month) ++
    "-" ++ padZeros 2 (toString d.day)

/-- The `or_` filter of `list_confirmations`: the pattern `%term%` `ilike`-
matches `full_name`, `church_name`, `priest_name`, or the
`strftime("%Y-%m-%d", ...)` rendering of `confirmation_date`. -/
def matchesSearch (term : String) (r : Confirmation) : Bool :=
  let pat := ("%" ++ term ++ "%").toList
  likeMatch pat r.full_name.toList ||
    likeMatch pat r.church_name.toList ||
    likeMatch pat r.priest_name.toList ||
    likeMatch pat (formatDate r.confirmation_date).toList

/-- Numeric key whose order agrees with the chronological (and, on valid
dates, the stored-text) order of `confirmation_date`. -/
def dateKey (d : PDate) : Nat :=
  d.year * 10000 + d.month * 100 + d.day

/-- `ORDER BY confirmation_date DESC` as a relation on rows. -/
def confDateGe (a b : Confirmation) : Prop :=
  dateKey b.confirmation_date ≤ dateKey a.confirmation_date

instance : DecidableRel confDateGe := fun a b =>
  inferInstanceAs (Decidable (dateKey b.confirmation_date ≤ dateKey a.confirmation_date))

instance : IsTotal Confirmation confDateGe :=
  ⟨fun a b => Nat.le_total (dateKey b.confirmation_date) (dateKey a.confirmation_date)⟩

instance : IsTrans Confirmation confDateGe :=
  ⟨fun _ _ _ hab hbc => Nat.le_trans hbc hab⟩

/-- `ORDER BY id ASC` (CSV export) as a relation on rows. -/
def idLe (a b : Confirmation) : Prop := a.id ≤ b.id

instance : DecidableRel idLe := fun a b =>
  inferInstanceAs (Decidable (a.id ≤ b.id))

instance : IsTotal Confirmation idLe := ⟨fun a b => Nat.le_total a.id b.id⟩

instance : IsTrans Confirmation idLe := ⟨fun _ _ _ => Nat.le_trans⟩

/-- The query part of `list_confirmations` (GET `/confirmations?q=`): no
filter when `q.strip()` is falsy (empty), otherwise the `ilike` filter on
the stripped query; then `ORDER BY confirmation_date DESC`.  SQL gives no
tie order for equal dates; the sort here is one order compatible with the
`ORDER BY`. -/
def list_confirmations (q : String) (db : Store) : List Confirmation :=
  let base := if pyStrip q == "" then db.records
              else db.records.filter (matchesSearch (pyStrip q))
  List.insertionSort confDateGe base

/-- The spec's words for the search predicate: one of the three name fields
or the formatted confirmation date "contains the query as a
case-insensitive substring".  Stated from the spec, to compare with
`matchesSearch`, which is translated from the code. -/
def listContainsSub (n : List Char) : List Char → Bool
  | [] => n.isEmpty
  | c :: cs => n.isPrefixOf (c :: cs) || listContainsSub n cs

/-- Case-insensitive "contains as substring" (the spec's wording). -/
def specContainsCI (needle hay : String) : Bool :=
  listContainsSub (needle.toList.map asciiLower) (hay.toList.map asciiLower)

/-- The spec's search predicate over a record (see `specContainsCI`). -/
def specMatches (q : String) (r : Confirmation) : Bool :=
  specContainsCI q r.full_name || specContainsCI q r.church_name ||
    specContainsCI q r.priest_name ||
    specContainsCI q (formatDate r.confirmation_date)

/-! ## CSV export (`export_csv` in main.py) -/

/-- The header row written by `export_csv`. -/
def headerRow : List String :=
  ["ID", "Full Name", "Date of Birth", "Confirmation Date", "Church Name",
   "Priest Name", "Sponsor Name", "Remarks", "Created At"]

/-- One CSV row per record: the nine cells, dates in `str(date)` ISO form,
`created_at` as an abstract timestamp string. -/
def toCsvRow (r : Confirmation) : List String :=
  [toString r.id, r.full_name, formatDate r.date_of_birth,
   formatDate r.confirmation_date, r.church_name, r.priest_name,
   r.sponsor_name, r.remarks, toString r.created_at]

/-- `export_csv` (GET `/backup/csv`) in main.py, as the list of rows it
feeds to `csv.writer`: `ORDER BY id ASC`, header first, one row per
record. -/
def export_csv (db : Store) : List (List String) :=
  headerRow :: (List.insertionSort idLe db.records).map toCsvRow

/-! ## Password hashing (`auth.py` over the `bcrypt` library)

`auth.py` delegates to `bcrypt.hashpw` / `bcrypt.checkpw`.  The blowfish
digest itself is an external cryptographic primitive, modelled as an
explicit parameter `B` (truncated password, 22-character salt, cost →
digest); everything the claims depend on — the `$2x$NN$` salt header
parsing, the `ValueError: Invalid salt` raise on a malformed hash, the
documented truncation of passwords to their first 72 bytes, and
`checkpw = hashpw(password, hash) == hash` — is modelled from the bcrypt
library's documented behaviour.  Strings are handled as character lists
(ASCII; the app's passwords and bcrypt's alphabet are ASCII). -/

/-- The digest-function parameter standing for the blowfish core. -/
def BCore : Type := List Char → List Char → Nat → List Char

/-- bcrypt's base64 alphabet: `.`, `/`, `A`–`Z`, `a`–`z`, `0`–`9`. -/
def bcryptB64 (c : Char) : Bool :=
  c == '.' || c == '/' || c.isAlphanum

/-- A well-formed 22-character bcrypt salt body (what `gensalt` emits after
the header). -/
def validSalt22 (s : List Char) : Bool :=
  s.length == 22 && s.all bcryptB64

/-- bcrypt ignores every password byte after the 72nd. -/
def truncate72 (p : List Char) : List Char := p.take 72

/-- Parsing of the modular-crypt header `$2{a,b,x,y}$NN$` plus the
22-character salt body; `none` is the library's `ValueError: Invalid
salt`.  Returns the header characters, the salt body and the cost. -/
def parseSaltHeader (cs : List Char) : Option (List Char × List Char × Nat) :=
  match cs with
  | '$' :: '2' :: v :: '$' :: d1 :: d2 :: '$' :: rest =>
    if (v == 'a' || v == 'b' || v == 'x' || v == 'y') && d1.isDigit && d2.isDigit then
      let cost := (d1.toNat - 48) * 10 + (d2.toNat - 48)
      let salt := rest.take 22
      if salt.length == 22 && salt.all bcryptB64 && 4 ≤ cost && cost ≤ 31 then
        some (['$', '2', v, '$', d1, d2, '$'], salt, cost)
      else none
    else none
  | _ => none

/-- `bcrypt.hashpw(password, salt)`: parse the salt (raising on a malformed
one), truncate the password to 72 bytes, emit header ++ salt ++ digest. -/
def bcrypt_hashpw (B : BCore) (password salt : List Char) : Option (List Char) :=
  match parseSaltHeader salt with
  | none => none
  | some (hdr, s22, cost) => some (hdr ++ s22 ++ B (truncate72 password) s22 cost)

/-- `bcrypt.checkpw(password, hashed)`: re-hash with the stored hash as the
salt and compare; a malformed stored hash raises `ValueError`. -/
def bcrypt_checkpw (B : BCore) (password hashed : List Char) :
    Except String Bool :=
  match bcrypt_hashpw B password hashed with
  | none => .error "Invalid salt"
  | some recomputed => .ok (recomputed == hashed)

/-- `hash_password` in auth.py:
`bcrypt.hashpw(password.encode(), bcrypt.gensalt()).decode()`.  `gensalt()`
returns `$2b$12$` plus 22 fresh random alphabet characters (`s22`, the
explicit-randomness parameter); on such a salt `hashpw` always succeeds
with this value (`hash_password_eq_hashpw` below). -/
def hash_password (B : BCore) (password : String) (s22 : List Char) : String :=
  String.mk ('$' :: '2' :: 'b' :: '$' :: '1' :: '2' :: '$' ::
    (s22 ++ B (truncate72 password.toList) s22 12))

/-- `verify_password` in auth.py: `bcrypt.checkpw` on the encoded strings,
with no guard around the library's exceptions. -/
def verify_password (B : BCore) (password hashed : String) :
    Except String Bool :=
  bcrypt_checkpw B password.toList hashed.toList

/-- A hash string `bcrypt.checkpw` accepts without raising: its salt header
parses. -/
def wellFormedBcrypt (h : String) : Bool :=
  (parseSaltHeader h.toList).isSome

/-- A concrete stand-in digest function, used only to evaluate the model at
specific inputs. -/
def demoCore : BCore := fun p s _ => p ++ s

/-! ## Login / logout (main.py) -/

/-- `login` (POST `/login`) in main.py: CSRF first; then user lookup by
trimmed username and password check (a failure of either re-renders the
login page with a freshly generated CSRF token, `fresh_token` being the
randomness); success stores the user id in the session.  An exception from
`verify_password` would escape the handler. -/
def login_handler (B : BCore) (sess : Session) (users : List UserRec)
    (username password csrf_token fresh_token : String) : Except Err Session :=
  if !(validate_csrf sess.csrf_token csrf_token) then .error .CsrfMismatch
  else match users.find? (fun u => u.username == pyStrip username) with
  | none => .ok { sess with csrf_token := some fresh_token }
  | some u =>
    match verify_password B password u.password_hash with
    | .error _ => .error .Internal
    | .ok false => .ok { sess with csrf_token := some fresh_token }
    | .ok true => .ok { sess with user_id := some u.id }

/-- `logout` (POST `/logout`) in main.py: CSRF first, then
`request.session.clear()`. -/
def logout_handler (sess : Session) (csrf_token : String) : Except Err Session :=
  if !(validate_csrf sess.csrf_token csrf_token) then .error .CsrfMismatch
  else .ok ⟨none, none⟩

/-! ## Concrete data for evaluating the model -/

/-- A logged-in session holding the CSRF token `"tok"`. -/
def demoSession : Session := ⟨some 1, some "tok"⟩

/-- A valid form. -/
def demoForm : ConfirmationForm :=
  ⟨"Jane Doe", "2010-01-01", "2023-05-01", "St. Mary", "Fr. John", "", ""⟩

/-- A form whose `full_name` is whitespace-only. -/
def demoFormBlank : ConfirmationForm :=
  ⟨"   ", "2010-01-01", "2023-05-01", "St. Mary", "Fr. John", "", ""⟩

/-- A form whose `confirmation_date` is not zero-padded. -/
def demoFormLenient : ConfirmationForm :=
  ⟨"Jane Doe", "2010-01-01", "2023-5-1", "St. Mary", "Fr. John", "", ""⟩

/-- A stored record. -/
def demoRecord : Confirmation :=
  ⟨1, "abc", ⟨2010, 1, 1⟩, ⟨2023, 5, 1⟩, "c", "p", "", "", 0⟩

/-- A second stored record, with a different id and an earlier date. -/
def demoRecord2 : Confirmation :=
  ⟨2, "def", ⟨2011, 2, 2⟩, ⟨2022, 4, 2⟩, "e", "q", "", "", 1⟩

/-- A one-record store. -/
def demoStore : Store := ⟨[demoRecord], 2⟩

/-- A two-record store. -/
def demoStore2 : Store := ⟨[demoRecord, demoRecord2], 3⟩

/-- A 22-character salt body as `gensalt()` would emit. -/
def demoSalt22 : List Char := "abcdefghijklmnopqrstuv".toList

/-- A second, different salt body. -/
def demoSalt22b : List Char := "Abcdefghijklmnopqrstuv".toList

/-- A structurally well-formed bcrypt hash string. -/
def demoGoodHash : String :=
  "$2b$12$abcdefghijklmnopqrstuvABCDEFGHIJKLMNOPQRSTUVWXYZabcde"

/-- A 73-character password. -/
def demoLongPw : String := String.mk (List.replicate 73 'a')

/-- A different password agreeing with `demoLongPw` on the first 72
characters. -/
def demoLongPw2 : String := String.mk (List.replicate 72 'a' ++ ['b'])

/-! ## Helper lemmas -/

/-- Finding by an id among records filtered to exclude that id fails. -/
lemma find?_filter_ne (l : List Confirmation) (rid : Nat) :
    (l.filter (fun r => !(r.id == rid))).find? (fun r => r.id == rid) = none := by
  rw [List.find?_eq_none]
  intro x hx
  have h2 := (List.mem_filter.mp hx).2
  simp only [Bool.not_eq_eq_eq_not, Bool.not_true] at h2
  simp [h2]

/-- `applyEdit` touches neither `id` nor `created_at`. -/
lemma applyEdit_id (f : ConfirmationForm) (dob cd : PDate) (r : Confirmation) :
    (applyEdit f dob cd r).id = r.id ∧
      (applyEdit f dob cd r).created_at = r.created_at :=
  ⟨rfl, rfl⟩

/-- Primary-key lookup commutes with `update_confirmation`'s row map. -/
lemma dbGet_map_edit (l : List Confirmation) (rid : Nat)
    (f : ConfirmationForm) (dob cd : PDate) (j : Nat) :
    (l.map (fun r => if r.id == rid then applyEdit f dob cd r else r)).find?
        (fun r => r.id == j) =
      (l.find? (fun r => r.id == j)).map
        (fun r => if r.id == rid then applyEdit f dob cd r else r) := by
  rw [List.find?_map]
  have hp : ((fun r : Confirmation => r.id == j) ∘
      (fun r => if r.id == rid then applyEdit f dob cd r else r)) =
      (fun r : Confirmation => r.id == j) := by
    funext r
    by_cases h : r.id == rid <;> simp [Function.comp, h, applyEdit]
  rw [hp]

/-- A valid salt body has 22 characters. -/
lemma validSalt22_length (s : List Char) (h : validSalt22 s = true) :
    s.length = 22 := by
  unfold validSalt22 at h
  rw [Bool.and_eq_true] at h
  simpa using h.1

/-- `bcrypt.hashpw` on a string carrying the `$2b$12$` header and a valid
22-character salt body: the header round-trips and the digest is appended;
anything after the salt body is ignored. -/
lemma bcrypt_hashpw_header (B : BCore) (pw s1 rest : List Char)
    (h : validSalt22 s1 = true) :
    bcrypt_hashpw B pw
        ('$' :: '2' :: 'b' :: '$' :: '1' :: '2' :: '$' :: (s1 ++ rest)) =
      some ('$' :: '2' :: 'b' :: '$' :: '1' :: '2' :: '$' ::
        (s1 ++ B (truncate72 pw) s1 12)) := by
  have hlen : s1.length = 22 := validSalt22_length s1 h
  have hall : s1.all bcryptB64 = true := by
    rw [validSalt22, Bool.and_eq_true] at h
    exact h.2
  have htake : (s1 ++ rest).take 22 = s1 := by
    rw [← hlen]
    exact List.take_left s1 rest
  unfold bcrypt_hashpw parseSaltHeader
  simp [htake, hlen, hall]

/-- The character list underlying `hash_password`. -/
lemma hash_password_toList (B : BCore) (password : String) (s1 : List Char) :
    (hash_password B password s1).toList =
      '$' :: '2' :: 'b' :: '$' :: '1' :: '2' :: '$' ::
        (s1 ++ B (truncate72 password.toList) s1 12) := rfl

/-! ## Claim theorems -/

/-- C10: when the session's stored CSRF token is absent or is the empty
string, `validate_csrf` fails for every submitted token, including a
submitted empty string that is character-for-character equal to the stored
empty token; exact equality is therefore not sufficient, the stored token
must also be non-empty. -/
theorem C10_empty_stored_token_never_validates (tok : String) :
    validate_csrf none tok = false ∧
    validate_csrf (some "") tok = false ∧
    validate_csrf (some "") "" = false := by
  refine ⟨rfl, ?_, rfl⟩
  simp [validate_csrf]

/-- C2: on every state-mutating handler (create, update, delete, login,
logout), a submitted CSRF token that `validate_csrf` rejects (absent stored
token or any difference) makes the request fail with `CsrfMismatch`, and
the record store is left unchanged. -/
theorem C2_csrf_mismatch_no_side_effect (sess : Session) (tok : String)
    (f : ConfirmationForm) (now rid : Nat) (db : Store) (B : BCore)
    (users : List UserRec) (username password fresh : String)
    (hauth : login_required sess = true)
    (hcsrf : validate_csrf sess.csrf_token tok = false) :
    create_confirmation sess f tok now db = .error .CsrfMismatch ∧
    applyResult db (create_confirmation sess f tok now db) = db ∧
    update_confirmation sess rid f tok db = .error .CsrfMismatch ∧
    applyResult db (update_confirmation sess rid f tok db) = db ∧
    delete_confirmation sess rid tok db = .error .CsrfMismatch ∧
    applyResult db (delete_confirmation sess rid tok db) = db ∧
    login_handler B sess users username password tok fresh = .error .CsrfMismatch ∧
    logout_handler sess tok = .error .CsrfMismatch := by
  simp [create_confirmation, update_confirmation, delete_confirmation,
    login_handler, logout_handler, applyResult, hauth, hcsrf]

/-- Witness for C2 at a concrete logged-in session whose stored token is
`"tok"` and a submitted token `"bad"`. -/
theorem C2_csrf_mismatch_no_side_effect_witness :
    create_confirmation demoSession demoForm "bad" 0 demoStore =
      .error .CsrfMismatch ∧
    applyResult demoStore (delete_confirmation demoSession 1 "bad" demoStore) =
      demoStore :=
  have h := C2_csrf_mismatch_no_side_effect demoSession "bad" demoForm 0 1
    demoStore demoCore [] "admin" "admin123" "fresh" rfl rfl
  ⟨h.1, h.2.2.2.2.2.1⟩

/-- C9: `get`, `update` and `delete` on an id absent from the store each
fail with `NotFound`; and after a successful `delete(id)`, `get(id)` fails
with `NotFound` and `delete(id)` again also fails with `NotFound`. -/
theorem C9_notfound_and_hard_delete (sess : Session) (tok : String)
    (db : Store) (rid : Nat) (f : ConfirmationForm)
    (hauth : login_required sess = true)
    (hcsrf : validate_csrf sess.csrf_token tok = true) :
    (dbGet db rid = none →
      view_confirmation sess rid db = .error .NotFound ∧
      update_confirmation sess rid f tok db = .error .NotFound ∧
      delete_confirmation sess rid tok db = .error .NotFound) ∧
    (∀ r0, dbGet db rid = some r0 →
      delete_confirmation sess rid tok db =
        .ok ⟨db.records.filter (fun r => !(r.id == rid)), db.next_id⟩ ∧
      view_confirmation sess rid
        ⟨db.records.filter (fun r => !(r.id == rid)), db.next_id⟩ =
        .error .NotFound ∧
      delete_confirmation sess rid tok
        ⟨db.records.filter (fun r => !(r.id == rid)), db.next_id⟩ =
        .error .NotFound) := by
  constructor
  · intro habsent
    refine ⟨?_, ?_, ?_⟩ <;>
      simp [view_confirmation, update_confirmation, delete_confirmation,
        hauth, hcsrf, habsent]
  · intro r0 hfound
    have hget : dbGet ⟨db.records.filter (fun r => !(r.id == rid)), db.next_id⟩
        rid = none := by
      simp only [dbGet]
      exact find?_filter_ne db.records rid
    refine ⟨?_, ?_, ?_⟩
    · simp [delete_confirmation, hauth, hcsrf, hfound]
    · simp [view_confirmation, hauth, hget]
    · simp [delete_confirmation, hauth, hcsrf, hget]

/-- Witness for C9: id 5 is absent from the one-record store, so `get`
fails with `NotFound`; deleting the present id 1 succeeds, after which
`get(1)` and a second `delete(1)` fail with `NotFound`. -/
theorem C9_notfound_and_hard_delete_witness :
    view_confirmation demoSession 5 demoStore = .error .NotFound ∧
    delete_confirmation demoSession 1 "tok" demoStore = .ok ⟨[], 2⟩ ∧
    view_confirmation demoSession 1 ⟨[], 2⟩ = .error .NotFound ∧
    delete_confirmation demoSession 1 "tok" ⟨[], 2⟩ = .error .NotFound :=
  have h5 := C9_notfound_and_hard_delete demoSession "tok" demoStore 5
    demoForm rfl rfl
  have h1 := C9_notfound_and_hard_delete demoSession "tok" demoStore 1
    demoForm rfl rfl
  ⟨(h5.1 rfl).1, (h1.2 demoRecord rfl).1, (h1.2 demoRecord rfl).2.1,
    (h1.2 demoRecord rfl).2.2⟩

/-- Counterexample to C1: a create request whose `full_name` is
whitespace-only does not fail with a `ValidationError`; it succeeds and
persists a record whose `full_name` is the empty string. -/
theorem C1_counterexample :
    create_confirmation demoSession demoFormBlank "tok" 0 ⟨[], 1⟩ =
      Except.ok ⟨[⟨1, "", ⟨2010, 1, 1⟩, ⟨2023, 5, 1⟩, "St. Mary", "Fr. John",
        "", "", 0⟩], 2⟩ := rfl

/-- C1 as amended: create and update trim every string field and validate
only the two date fields; non-emptiness of the required fields is never
checked, so once the dates parse the operation succeeds and persists the
trimmed values — even when a required field is empty or whitespace-only
(stored as the empty string). -/
theorem C1_no_required_field_validation (sess : Session)
    (f : ConfirmationForm) (tok : String) (now : Nat) (db : Store)
    (dob cd : PDate)
    (hauth : login_required sess = true)
    (hcsrf : validate_csrf sess.csrf_token tok = true)
    (hdob : parseDateField f.date_of_birth = some dob)
    (hcd : parseDateField f.confirmation_date = some cd) :
    create_confirmation sess f tok now db =
      .ok ⟨db.records ++ [⟨db.next_id, pyStrip f.full_name, dob, cd,
        pyStrip f.church_name, pyStrip f.priest_name, pyStrip f.sponsor_name,
        pyStrip f.remarks, now⟩], db.next_id + 1⟩ ∧
    (∀ rid r0, dbGet db rid = some r0 →
      update_confirmation sess rid f tok db =
        .ok ⟨db.records.map (fun r =>
          if r.id == rid then applyEdit f dob cd r else r), db.next_id⟩) := by
  constructor
  · simp [create_confirmation, hauth, hcsrf, hdob, hcd]
  · intro rid r0 hfound
    simp [update_confirmation, hauth, hcsrf, hfound, hdob, hcd]

/-- Witness for C1's amended theorem: the whitespace-only form is accepted
and stored trimmed-to-empty. -/
theorem C1_no_required_field_validation_witness :
    create_confirmation demoSession demoFormBlank "tok" 7 demoStore =
      .ok ⟨[demoRecord, ⟨2, "", ⟨2010, 1, 1⟩, ⟨2023, 5, 1⟩, "St. Mary",
        "Fr. John", "", "", 7⟩], 3⟩ :=
  (C1_no_required_field_validation demoSession demoFormBlank "tok" 7
    demoStore ⟨2010, 1, 1⟩ ⟨2023, 5, 1⟩ rfl rfl rfl rfl).1

/-- Counterexample to C4: the date `"2023-5-1"` is not in the exact format
`YYYY-MM-DD` (month and day lack zero padding), yet create does not fail —
`strptime` accepts it and the record is persisted with the coerced date
2023-05-01. -/
theorem C4_counterexample :
    specExactYMD "2023-5-1" = false ∧
    create_confirmation demoSession demoFormLenient "tok" 0 ⟨[], 1⟩ =
      Except.ok ⟨[⟨1, "Jane Doe", ⟨2010, 1, 1⟩, ⟨2023, 5, 1⟩, "St. Mary",
        "Fr. John", "", "", 0⟩], 2⟩ :=
  ⟨rfl, rfl⟩

/-- Every date `parse_date` accepts is a valid calendar date. -/
lemma parseDateField_valid (s : String) (d : PDate)
    (h : parseDateField s = some d) : validDate d = true := by
  unfold parseDateField at h
  split at h
  · split at h
    · split at h
      · rename_i cond
        simp only [Bool.and_eq_true] at cond
        cases h
        exact cond.2
      · exact absurd h (by simp)
    · exact absurd h (by simp)
  · exact absurd h (by simp)

/-- C4 as amended: the two date fields must match CPython `strptime`'s
`%Y-%m-%d` — a year of exactly four digits, a month of 1–2 digits valued
1–12, and a day of 1–2 digits valued 1–31 or a space followed by a nonzero
digit — and denote a valid calendar date.  Zero padding of month and day is
not required (`"2023-5-1"` is accepted) and a space-padded day such as
`"2023-01- 5"` is accepted, so the format is not exactly `YYYY-MM-DD`,
while a three-digit year such as `"999-01-01"` is rejected; any other input
(in particular an invalid date such as `"2023-13-01"`) makes create/update
fail with a `ValidationError` naming the offending field, and no record is
created or modified. -/
theorem C4_date_validation (sess : Session) (f : ConfirmationForm)
    (tok : String) (now : Nat) (db : Store) (rid : Nat)
    (hauth : login_required sess = true)
    (hcsrf : validate_csrf sess.csrf_token tok = true) :
    (parseDateField f.date_of_birth = none →
      create_confirmation sess f tok now db =
        .error (.ValidationError "date_of_birth")) ∧
    (∀ dob, parseDateField f.date_of_birth = some dob →
      parseDateField f.confirmation_date = none →
      create_confirmation sess f tok now db =
        .error (.ValidationError "confirmation_date")) ∧
    (∀ r0, dbGet db rid = some r0 → parseDateField f.date_of_birth = none →
      update_confirmation sess rid f tok db =
        .error (.ValidationError "date_of_birth")) ∧
    (∀ r0 dob, dbGet db rid = some r0 →
      parseDateField f.date_of_birth = some dob →
      parseDateField f.confirmation_date = none →
      update_confirmation sess rid f tok db =
        .error (.ValidationError "confirmation_date")) ∧
    parseDateField "2023-13-01" = none ∧
    parseDateField "999-01-01" = none ∧
    parseDateField "2023-5-1" = some ⟨2023, 5, 1⟩ ∧
    parseDateField "2023-01- 5" = some ⟨2023, 1, 5⟩ ∧
    (∀ s d, parseDateField s = some d → validDate d = true) := by
  refine ⟨?_, ?_, ?_, ?_, rfl, rfl, rfl, rfl, parseDateField_valid⟩
  · intro hdob
    simp [create_confirmation, hauth, hcsrf, hdob]
  · intro dob hdob hcd
    simp [create_confirmation, hauth, hcsrf, hdob, hcd]
  · intro r0 hfound hdob
    simp [update_confirmation, hauth, hcsrf, hfound, hdob]
  · intro r0 dob hfound hdob hcd
    simp [update_confirmation, hauth, hcsrf, hfound, hdob, hcd]

/-- Witness for C4's amended theorem: the invalid date `"2023-13-01"` on
create fails naming `confirmation_date`, and no record is created. -/
theorem C4_date_validation_witness :
    create_confirmation demoSession
      ⟨"Jane Doe", "2010-01-01", "2023-13-01", "St. Mary", "Fr. John", "", ""⟩
      "tok" 0 ⟨[], 1⟩ = .error (.ValidationError "confirmation_date") :=
  (C4_date_validation demoSession
    ⟨"Jane Doe", "2010-01-01", "2023-13-01", "St. Mary", "Fr. John", "", ""⟩
    "tok" 0 ⟨[], 1⟩ 0 rfl rfl).2.1 ⟨2010, 1, 1⟩ rfl rfl

/-- `view_confirmation` returns whatever the primary-key lookup finds. -/
lemma view_eq_of_get (sess : Session) (rid : Nat) (db : Store)
    (r : Confirmation) (hauth : login_required sess = true)
    (h : dbGet db rid = some r) :
    view_confirmation sess rid db = .ok r := by
  simp [view_confirmation, hauth, h]

/-- C6: updating an existing record with a valid field set and then getting
it returns exactly the new trimmed field values with `id` and `created_at`
unchanged, and the lookup of every other id is unaffected. -/
theorem C6_update_then_get (sess : Session) (tok : String)
    (f : ConfirmationForm) (db : Store) (rid : Nat) (r0 : Confirmation)
    (dob cd : PDate)
    (hauth : login_required sess = true)
    (hcsrf : validate_csrf sess.csrf_token tok = true)
    (hfound : dbGet db rid = some r0)
    (hdob : parseDateField f.date_of_birth = some dob)
    (hcd : parseDateField f.confirmation_date = some cd) :
    update_confirmation sess rid f tok db =
      .ok ⟨db.records.map (fun r =>
        if r.id == rid then applyEdit f dob cd r else r), db.next_id⟩ ∧
    view_confirmation sess rid ⟨db.records.map (fun r =>
        if r.id == rid then applyEdit f dob cd r else r), db.next_id⟩ =
      .ok { r0 with
            full_name := pyStrip f.full_name
            date_of_birth := dob
            confirmation_date := cd
            church_name := pyStrip f.church_name
            priest_name := pyStrip f.priest_name
            sponsor_name := pyStrip f.sponsor_name
            remarks := pyStrip f.remarks } ∧
    (∀ j, j ≠ rid →
      dbGet ⟨db.records.map (fun r =>
        if r.id == rid then applyEdit f dob cd r else r), db.next_id⟩ j =
      dbGet db j) := by
  have hfound2 : db.records.find? (fun r => r.id == rid) = some r0 := hfound
  have hid : (r0.id == rid) = true := by
    have := List.find?_some hfound2
    simpa using this
  refine ⟨?_, ?_, ?_⟩
  · simp [update_confirmation, hauth, hcsrf, hfound, hdob, hcd]
  · have hg : dbGet ⟨db.records.map (fun r =>
        if r.id == rid then applyEdit f dob cd r else r), db.next_id⟩ rid =
        some (applyEdit f dob cd r0) := by
      simp only [dbGet]
      rw [dbGet_map_edit, hfound2]
      simp [show r0.id = rid by simpa using hid]
    exact view_eq_of_get _ _ _ _ hauth hg
  · intro j hj
    simp only [dbGet] at hfound ⊢
    rw [dbGet_map_edit]
    cases hfj : db.records.find? (fun r => r.id == j) with
    | none => rfl
    | some r =>
      have hrj : (r.id == j) = true := by simpa using List.find?_some hfj
      have hne : r.id ≠ rid := by
        have : r.id = j := by simpa using hrj
        simpa [this] using hj
      simp [hne]

/-- Witness for C6 on the two-record store: record 1 is rewritten to the
new trimmed values keeping its `created_at`, and record 2 is untouched. -/
theorem C6_update_then_get_witness :
    update_confirmation demoSession 1 demoForm "tok" demoStore2 =
      .ok ⟨[⟨1, "Jane Doe", ⟨2010, 1, 1⟩, ⟨2023, 5, 1⟩, "St. Mary",
        "Fr. John", "", "", 0⟩, demoRecord2], 3⟩ ∧
    view_confirmation demoSession 1 ⟨[⟨1, "Jane Doe", ⟨2010, 1, 1⟩,
        ⟨2023, 5, 1⟩, "St. Mary", "Fr. John", "", "", 0⟩, demoRecord2], 3⟩ =
      .ok ⟨1, "Jane Doe", ⟨2010, 1, 1⟩, ⟨2023, 5, 1⟩, "St. Mary", "Fr. John",
        "", "", 0⟩ ∧
    dbGet ⟨[⟨1, "Jane Doe", ⟨2010, 1, 1⟩, ⟨2023, 5, 1⟩, "St. Mary",
        "Fr. John", "", "", 0⟩, demoRecord2], 3⟩ 2 = dbGet demoStore2 2 :=
  have h := C6_update_then_get demoSession "tok" demoForm demoStore2 1
    demoRecord ⟨2010, 1, 1⟩ ⟨2023, 5, 1⟩ rfl rfl rfl rfl rfl
  ⟨h.1, h.2.1, h.2.2 2 (by decide)⟩

/-- Counterexample to C5: the query `"%"` is a `LIKE` wildcard, not a
literal character — search returns the demo record even though none of its
searched fields contains `"%"` as a substring, so search does not return
exactly the records with a case-insensitive substring match. -/
theorem C5_counterexample :
    list_confirmations "%" demoStore = [demoRecord] ∧
    specMatches "%" demoRecord = false :=
  ⟨rfl, rfl⟩

/-- C5 as amended: an empty or whitespace-only query returns all records;
otherwise the stripped query, wrapped in `%…%`, is matched as a SQL `LIKE`
pattern (ASCII-case-insensitively, with `%` and `_` in the query acting as
wildcards) against `full_name`, `church_name`, `priest_name`, and the
`YYYY-MM-DD` rendering of the confirmation date, and search returns exactly
the matching records; the result is ordered by `confirmation_date`
descending (the tie order among equal dates is not specified by the SQL
backend). -/
theorem C5_search_filter_and_order (q : String) (db : Store) :
    (pyStrip q = "" → (list_confirmations q db).Perm db.records) ∧
    (pyStrip q ≠ "" → (list_confirmations q db).Perm
      (db.records.filter (matchesSearch (pyStrip q)))) ∧
    List.Sorted confDateGe (list_confirmations q db) := by
  unfold list_confirmations
  by_cases h : pyStrip q = ""
  · simp only [h]
    refine ⟨fun _ => ?_, fun hne => absurd rfl hne, ?_⟩
    · simpa using List.perm_insertionSort confDateGe db.records
    · simpa using List.sorted_insertionSort confDateGe db.records
  · have hb : (pyStrip q == "") = false := by simpa [beq_eq_false_iff_ne] using h
    simp only [hb]
    refine ⟨fun he => absurd he h, fun _ => ?_, ?_⟩
    · simpa using
        List.perm_insertionSort confDateGe
          (db.records.filter (matchesSearch (pyStrip q)))
    · simpa using
        List.sorted_insertionSort confDateGe
          (db.records.filter (matchesSearch (pyStrip q)))

/-- Witness for C5's amended theorem: a blank query returns every record of
the two-record store; the query `"mary"` matches `"St. Mary"`
case-insensitively and `"xyz"` matches nothing. -/
theorem C5_search_filter_and_order_witness :
    (list_confirmations "  " demoStore2).Perm demoStore2.records ∧
    (list_confirmations "mary" ⟨[demoRecord, ⟨2, "x", ⟨2010, 1, 1⟩,
      ⟨2022, 1, 1⟩, "St. Mary", "p", "", "", 0⟩], 3⟩).Perm
      [⟨2, "x", ⟨2010, 1, 1⟩, ⟨2022, 1, 1⟩, "St. Mary", "p", "", "", 0⟩] ∧
    (list_confirmations "xyz" demoStore2).Perm [] :=
  ⟨(C5_search_filter_and_order "  " demoStore2).1 rfl,
   (C5_search_filter_and_order "mary" ⟨[demoRecord, ⟨2, "x", ⟨2010, 1, 1⟩,
      ⟨2022, 1, 1⟩, "St. Mary", "p", "", "", 0⟩], 3⟩).2.1 (by decide),
   (C5_search_filter_and_order "xyz" demoStore2).2.1 (by decide)⟩

/-- C8: the CSV export is the exact nine-cell header row followed by one
row per stored record, the records ordered by `id` ascending. -/
theorem C8_csv_export_shape (db : Store) :
    ∃ sorted : List Confirmation,
      sorted.Perm db.records ∧ List.Sorted idLe sorted ∧
      export_csv db = headerRow :: sorted.map toCsvRow :=
  ⟨List.insertionSort idLe db.records,
   List.perm_insertionSort idLe db.records,
   List.sorted_insertionSort idLe db.records, rfl⟩

/-- Counterexample to C3: `verify_password` is not total — on the malformed
hash string `"nothash"` it raises (`bcrypt.checkpw`'s
`ValueError: Invalid salt`) instead of returning false. -/
theorem C3_counterexample :
    verify_password demoCore "password" "nothash" =
      Except.error "Invalid salt" := rfl

/-- C3 as amended: `verify_password` returns a boolean exactly on hash
strings whose bcrypt salt header parses; on every malformed hash string it
raises `ValueError: Invalid salt` instead of returning false. -/
theorem C3_verify_raises_on_malformed (B : BCore) (password hashed : String) :
    (wellFormedBcrypt hashed = true →
      ∃ b, verify_password B password hashed = .ok b) ∧
    (wellFormedBcrypt hashed = false →
      verify_password B password hashed = .error "Invalid salt") := by
  constructor
  · intro hw
    unfold wellFormedBcrypt at hw
    cases hp : parseSaltHeader hashed.toList with
    | none => rw [hp] at hw; simp at hw
    | some v =>
      obtain ⟨hdr, s22, cost⟩ := v
      refine ⟨(hdr ++ s22 ++ B (truncate72 password.toList) s22 cost) ==
        hashed.toList, ?_⟩
      simp only [verify_password, bcrypt_checkpw, bcrypt_hashpw, hp]
  · intro hw
    unfold wellFormedBcrypt at hw
    cases hp : parseSaltHeader hashed.toList with
    | none => simp only [verify_password, bcrypt_checkpw, bcrypt_hashpw, hp]
    | some v => rw [hp] at hw; simp at hw

/-- Witness for C3's amended theorem: a structurally well-formed hash gets
a boolean verdict, while `"nothash"` raises. -/
theorem C3_verify_raises_on_malformed_witness :
    (∃ b, verify_password demoCore "pw" demoGoodHash = .ok b) ∧
    verify_password demoCore "pw" "nothash" = .error "Invalid salt" :=
  ⟨(C3_verify_raises_on_malformed demoCore "pw" demoGoodHash).1 rfl,
   (C3_verify_raises_on_malformed demoCore "pw" "nothash").2 rfl⟩

/-- Counterexample to C7: bcrypt reads only the first 72 bytes of a
password, so the 73-character password `demoLongPw2` — distinct from
`demoLongPw` — still verifies against `demoLongPw`'s hash: `verify(wrong,
hash(password))` is not false for every wrong password. -/
theorem C7_counterexample :
    demoLongPw2 ≠ demoLongPw ∧
    verify_password demoCore demoLongPw2
      (hash_password demoCore demoLongPw demoSalt22) = .ok true :=
  ⟨by decide, rfl⟩

/-- C7 as amended: `verify(password, hash(password))` is true for every
password and fresh valid salt; `verify(wrong, hash(password))` is false
whenever the digests of the 72-byte-truncated passwords differ (in
particular bcrypt cannot distinguish passwords agreeing on their first 72
bytes); and hashing the same password with two different salts yields two
different hashes (the non-determinism of `gensalt`). -/
theorem C7_hash_verify_roundtrip (B : BCore) (password wrong : String)
    (s1 s2 : List Char) (h1 : validSalt22 s1 = true) :
    verify_password B password (hash_password B password s1) = .ok true ∧
    (B (truncate72 wrong.toList) s1 12 ≠ B (truncate72 password.toList) s1 12 →
      verify_password B wrong (hash_password B password s1) = .ok false) ∧
    (validSalt22 s2 = true → s1 ≠ s2 →
      hash_password B password s1 ≠ hash_password B password s2) := by
  have hrun : ∀ w : String,
      verify_password B w (hash_password B password s1) =
        .ok (('$' :: '2' :: 'b' :: '$' :: '1' :: '2' :: '$' ::
            (s1 ++ B (truncate72 w.toList) s1 12)) ==
          ('$' :: '2' :: 'b' :: '$' :: '1' :: '2' :: '$' ::
            (s1 ++ B (truncate72 password.toList) s1 12))) := by
    intro w
    unfold verify_password bcrypt_checkpw
    rw [hash_password_toList, bcrypt_hashpw_header B w.toList s1 _ h1]
  refine ⟨?_, ?_, ?_⟩
  · rw [hrun password]
    exact congrArg Except.ok (beq_self_eq_true _)
  · intro hne
    rw [hrun wrong]
    have hlne : ('$' :: '2' :: 'b' :: '$' :: '1' :: '2' :: '$' ::
        (s1 ++ B (truncate72 wrong.toList) s1 12)) ≠
        ('$' :: '2' :: 'b' :: '$' :: '1' :: '2' :: '$' ::
          (s1 ++ B (truncate72 password.toList) s1 12)) := by
      intro hEq
      apply hne
      exact List.append_cancel_left (List.tail_eq_of_cons_eq
        (List.tail_eq_of_cons_eq (List.tail_eq_of_cons_eq
        (List.tail_eq_of_cons_eq (List.tail_eq_of_cons_eq
        (List.tail_eq_of_cons_eq (List.tail_eq_of_cons_eq hEq)))))))
    exact congrArg Except.ok (beq_eq_false_iff_ne.mpr hlne)
  · intro h2 hne hEq
    apply hne
    have hlist : ('$' :: '2' :: 'b' :: '$' :: '1' :: '2' :: '$' ::
        (s1 ++ B (truncate72 password.toList) s1 12)) =
        ('$' :: '2' :: 'b' :: '$' :: '1' :: '2' :: '$' ::
          (s2 ++ B (truncate72 password.toList) s2 12)) :=
      congrArg String.toList hEq
    have happ := List.tail_eq_of_cons_eq (List.tail_eq_of_cons_eq
      (List.tail_eq_of_cons_eq (List.tail_eq_of_cons_eq
      (List.tail_eq_of_cons_eq (List.tail_eq_of_cons_eq
      (List.tail_eq_of_cons_eq hlist))))))
    have htake := congrArg (List.take 22) happ
    have e1 : (s1 ++ B (truncate72 password.toList) s1 12).take 22 = s1 := by
      rw [← validSalt22_length s1 h1]
      exact List.take_left _ _
    have e2 : (s2 ++ B (truncate72 password.toList) s2 12).take 22 = s2 := by
      rw [← validSalt22_length s2 h2]
      exact List.take_left _ _
    rw [e1, e2] at htake
    exact htake

/-- Witness for C7's amended theorem at concrete passwords and salts. -/
theorem C7_hash_verify_roundtrip_witness :
    verify_password demoCore "pw" (hash_password demoCore "pw" demoSalt22) =
      .ok true ∧
    verify_password demoCore "other"
      (hash_password demoCore "pw" demoSalt22) = .ok false ∧
    hash_password demoCore "pw" demoSalt22 ≠
      hash_password demoCore "pw" demoSalt22b :=
  have h := C7_hash_verify_roundtrip demoCore "pw" "other" demoSalt22
    demoSalt22b rfl
  ⟨h.1, h.2.1 (by decide), h.2.2 rfl (by decide)⟩

end ParishRecord
